import Mathlib

/-!
Shallow embedding of the MBTA ingestion-aggregation pipeline
(`src/mbta_pipeline`): the data model, the aggregator statistics, the
analytics status scoring, the validator, the GTFS-RT trip-update parsing,
the ingestion cycle, the storage gateway and the REST retry / rate-limit
logic, together with theorems settling the specification claims.
-/

set_option maxRecDepth 4000

/-! ## Data model (`models/transit.py`) -/

/-- `Prediction` (pydantic model `models/transit.py`), restricted to the
fields the aggregator and the storage gateway read. `delay` is
`Optional[int]`, timestamps are modelled as integer epoch seconds. -/
structure Prediction where
  predictionId : String
  tripId : String
  stopId : String
  routeId : String
  arrivalTime : Option Int := none
  departureTime : Option Int := none
  scheduleRelationship : Option String := none
  vehicleId : Option String := none
  status : Option String := none
  delay : Option Int := none
deriving Repr, DecidableEq

/-- `VehiclePosition` (`models/transit.py`), fields read by the validator
and the aggregator. Coordinates are rationals (floats in the source). -/
structure VehiclePos where
  vehicleId : String
  tripId : Option String := none
  routeId : Option String := none
  latitude : ℚ
  longitude : ℚ
  bearing : Option ℚ := none
  speed : Option ℚ := none
  timestamp : Int
deriving Repr, DecidableEq

/-- `Alert` (`models/transit.py`), fields read by the aggregator. -/
structure AlertRec where
  alertId : String
  affectedRoutes : List String := []
  affectedStops : List String := []
deriving Repr, DecidableEq

/-- Python truthiness of the `Optional[int]` field `delay`:
`if prediction.delay:` is taken exactly when the value is present and
nonzero. -/
def delayTruthy : Option Int → Bool
  | some d => d ≠ 0
  | none => false

/-! ## Aggregator (`processing/aggregator.py`) -/

/-- Python `max` over a nonempty list of ints (first element seeds the
fold); `0` is never used on the branches where the source calls it. -/
def listMax : List Int → Int
  | [] => 0
  | x :: xs => xs.foldl (fun a b => if a ≥ b then a else b) x

/-- Python `min` over a nonempty list of ints. -/
def listMin : List Int → Int
  | [] => 0
  | x :: xs => xs.foldl (fun a b => if a ≤ b then a else b) x

/-- Result dictionary of `_get_performance_metrics`. The `delay_count`
key is absent (`none`) on the empty-delays early return. -/
structure PerfMetrics where
  avgDelay : ℚ
  maxDelay : Int
  minDelay : Int
  delayCount : Option Nat
deriving Repr, DecidableEq

/-- `DataAggregator._get_performance_metrics`: collect
`p.delay for p in predictions if p.delay is not None` (note: `is not None`,
so a present 0 is kept) and report mean / max / min / count. -/
def get_performance_metrics (preds : List Prediction) : PerfMetrics :=
  let delays := preds.filterMap Prediction.delay
  if delays = [] then
    { avgDelay := 0, maxDelay := 0, minDelay := 0, delayCount := none }
  else
    { avgDelay := (delays.sum : ℚ) / (delays.length : ℚ)
      maxDelay := listMax delays
      minDelay := listMin delays
      delayCount := some delays.length }

/-- Per-route entry of `DataAggregator.get_route_summary()`. -/
structure RouteStats where
  predictions : Nat
  delays : List Int
  vehiclePositions : Nat
  alerts : Nat
  avgDelay : ℚ
  maxDelay : Int
  minDelay : Int
deriving Repr, DecidableEq

/-- Per-stop entry of `DataAggregator.get_stop_summary()`. -/
structure StopStats where
  predictions : Nat
  delays : List Int
  alerts : Nat
  avgDelay : ℚ
  maxDelay : Int
  minDelay : Int
deriving Repr, DecidableEq

/-- The `delays` list accumulated for route key `r` by the loop
`for prediction in ...: if prediction.delay: ...append(prediction.delay)`
in `get_route_summary`. -/
def routeDelays (r : String) : List Prediction → List Int
  | [] => []
  | p :: ps =>
      (if p.routeId = r ∧ delayTruthy p.delay then [p.delay.getD 0] else [])
        ++ routeDelays r ps

/-- The `delays` list accumulated for stop key `sid` by `get_stop_summary`. -/
def stopDelays (sid : String) : List Prediction → List Int
  | [] => []
  | p :: ps =>
      (if p.stopId = sid ∧ delayTruthy p.delay then [p.delay.getD 0] else [])
        ++ stopDelays sid ps

/-- Vehicle-position count for route key `r`:
`if position.route_id:` guards with truthiness, so an empty route id is
never counted. -/
def vehiclePositionCount (r : String) (vps : List VehiclePos) : Nat :=
  vps.countP fun vp =>
    match vp.routeId with
    | some rid => rid ≠ "" && rid == r
    | none => false

/-- Alert count for route key `r`: one increment per occurrence of `r` in
`alert.affected_routes`. -/
def routeAlertCount (r : String) (als : List AlertRec) : Nat :=
  als.foldr (fun a n => a.affectedRoutes.count r + n) 0

/-- Alert count for stop key `sid` over `alert.affected_stops`. -/
def stopAlertCount (sid : String) (als : List AlertRec) : Nat :=
  als.foldr (fun a n => a.affectedStops.count sid + n) 0

/-- `DataAggregator.get_route_summary()` entry for route key `r`:
prediction / vehicle-position / alert counts, the truthy delays list, and
avg / max / min over it (all three `0` when the list is empty). -/
def get_route_summary (preds : List Prediction) (vps : List VehiclePos)
    (als : List AlertRec) (r : String) : RouteStats :=
  let delays := routeDelays r preds
  { predictions := preds.countP fun p => p.routeId == r
    delays := delays
    vehiclePositions := vehiclePositionCount r vps
    alerts := routeAlertCount r als
    avgDelay := if delays = [] then 0 else (delays.sum : ℚ) / (delays.length : ℚ)
    maxDelay := if delays = [] then 0 else listMax delays
    minDelay := if delays = [] then 0 else listMin delays }

/-- `DataAggregator.get_stop_summary()` entry for stop key `sid`. -/
def get_stop_summary (preds : List Prediction) (als : List AlertRec)
    (sid : String) : StopStats :=
  let delays := stopDelays sid preds
  { predictions := preds.countP fun p => p.stopId == sid
    delays := delays
    alerts := stopAlertCount sid als
    avgDelay := if delays = [] then 0 else (delays.sum : ℚ) / (delays.length : ℚ)
    maxDelay := if delays = [] then 0 else listMax delays
    minDelay := if delays = [] then 0 else listMin delays }

/-! ## Analytics (`processing/analytics.py`) -/

/-- The final `Return status based on score` block of
`_calculate_overall_status`. -/
def statusOfScore (score : Int) : String :=
  if score ≥ 80 then "excellent"
  else if score ≥ 60 then "good"
  else if score ≥ 40 then "fair"
  else "poor"

/-- `TransitAnalytics._calculate_overall_status`: start from 100 points,
deduct for delays, high-severity anomalies and alert load, then map the
score to a categorical label. -/
def calculate_overall_status (onTimePercentage : ℚ)
    (anomalySeverities : List String) (totalAlerts : Int) : String :=
  let score : Int := 100
  let score := if onTimePercentage < 80 then score - 20
    else if onTimePercentage < 90 then score - 10
    else score
  let highSeverityAnomalies := (anomalySeverities.filter (· == "high")).length
  let score := score - highSeverityAnomalies * 15
  let score := if totalAlerts > 5 then score - 10 else score
  statusOfScore score

/-- The claim's wording of the service-status scoring, written as a single
arithmetic expression: 100 minus the three deductions, then the
threshold map. -/
def overallStatusClaim (onTimePercentage : ℚ)
    (anomalySeverities : List String) (totalAlerts : Int) : String :=
  let deduction : Int :=
    (if onTimePercentage < 80 then 20 else if onTimePercentage < 90 then 10 else 0)
      + 15 * ((anomalySeverities.filter (· == "high")).length : Int)
      + (if totalAlerts > 5 then 10 else 0)
  statusOfScore (100 - deduction)

/-! ## Validator (`processing/validator.py`) -/

/-- Coordinate bounds dictionary from `_setup_validation_rules`. -/
structure CoordBounds where
  latMin : ℚ
  latMax : ℚ
  lonMin : ℚ
  lonMax : ℚ
deriving Repr, DecidableEq

/-- The `vehicle_position` (and `stop`) coordinate bounds configured in
`_setup_validation_rules`: the Boston service area. -/
def vehiclePositionBounds : CoordBounds :=
  { latMin := 42.0, latMax := 43.0, lonMin := -71.5, lonMax := -70.5 }

/-- `DataValidator._validate_coordinates`. -/
def validate_coordinates (lat lon : ℚ) (bounds : CoordBounds) : Bool :=
  bounds.latMin ≤ lat && lat ≤ bounds.latMax &&
    bounds.lonMin ≤ lon && lon ≤ bounds.lonMax

/-- `DataValidator._validate_range` (inclusive bounds). -/
def validate_range (value : ℚ) (lo hi : ℚ) : Bool :=
  lo ≤ value && value ≤ hi

/-- Speed check in `_validate_vehicle_position`: bounds `(0, 50)` applied
only when `speed` is present. -/
def speedCheck (vp : VehiclePos) : Bool :=
  match vp.speed with
  | some s => validate_range s 0 50
  | none => true

/-- Bearing check in `_validate_vehicle_position`: range `(0, 360)`
applied only when `bearing` is present. -/
def bearingCheck (vp : VehiclePos) : Bool :=
  match vp.bearing with
  | some b => validate_range b 0 360
  | none => true

/-- `DataValidator._validate_timestamp_age` with `max_age` in seconds:
`(now - timestamp) <= max_age`. -/
def validate_timestamp_age (now timestamp maxAge : Int) : Bool :=
  now - timestamp ≤ maxAge

/-- `_check_required_fields` for a vehicle position: latitude, longitude
and timestamp are non-optional in the pydantic model, so only
`vehicle_id` can fail — it fails when blank (`not value.strip()`, i.e.
every character is whitespace). -/
def requiredFieldsCheck (vp : VehiclePos) : Bool :=
  ! vp.vehicleId.toList.all Char.isWhitespace

/-- `DataValidator._validate_vehicle_position` parameterised over the
wall-clock `now` (epoch seconds); returns the record iff every check
passes, `none` otherwise. `max_age` is 30 minutes = 1800 seconds. -/
def validate_vehicle_position (now : Int) (vp : VehiclePos) : Option VehiclePos :=
  if ¬ requiredFieldsCheck vp then none
  else if ¬ validate_coordinates vp.latitude vp.longitude vehiclePositionBounds then none
  else if ¬ speedCheck vp then none
  else if ¬ validate_timestamp_age now vp.timestamp 1800 then none
  else if ¬ bearingCheck vp then none
  else some vp

/-- The claim's wording of coordinate acceptance: latitude in
`[-90, 90]` and longitude in `[-180, 180]`. -/
def coordInRangeClaim (lat lon : ℚ) : Bool :=
  -90 ≤ lat && lat ≤ 90 && -180 ≤ lon && lon ≤ 180

/-! ## GTFS-RT trip-update delay (`ingestion/gtfs_rt_ingestor.py`) -/

/-- One of the `arrival` / `departure` sub-dicts built by
`_parse_trip_updates`: present iff the protobuf field was present, and
its `delay` key is `None` when the delay field was absent. -/
structure StopTimeEvent where
  delay : Option Int := none
  time : Option Int := none
deriving Repr, DecidableEq

/-- One entry of `stop_time_updates` built by `_parse_trip_updates`. -/
structure StopTimeUpdate where
  stopId : String
  arrival : Option StopTimeEvent := none
  departure : Option StopTimeEvent := none
deriving Repr, DecidableEq

/-- The contribution of one `arrival` / `departure` sub-dict to the
`delays` list of `_parse_trip_updates`:
`if "arrival" in stop_update and stop_update["arrival"].get("delay"):`
— Python truthiness, so a present delay of 0 is skipped. -/
def truthyEventDelay : Option StopTimeEvent → List Int
  | some ev =>
      match ev.delay with
      | some d => if d ≠ 0 then [d] else []
      | none => []
  | none => []

/-- The `delays` list collected by the loop in `_parse_trip_updates`:
arrival is inspected before departure for each stop-time update. -/
def collectDelays : List StopTimeUpdate → List Int
  | [] => []
  | su :: rest =>
      truthyEventDelay su.arrival ++ truthyEventDelay su.departure
        ++ collectDelays rest

/-- The trip update's derived `delay` field:
`sum(delays) / len(delays)` when the collected list is nonempty,
otherwise left as `None`. -/
def trip_update_delay (sus : List StopTimeUpdate) : Option ℚ :=
  let delays := collectDelays sus
  if delays = [] then none
  else some ((delays.sum : ℚ) / (delays.length : ℚ))

/-- All delay values *present* on one `arrival` / `departure` sub-dict,
zeros included — the collection the claim describes. -/
def presentEventDelay : Option StopTimeEvent → List Int
  | some ev => ev.delay.toList
  | none => []

/-- All present arrival/departure delay values of a trip update,
including zeros. -/
def presentDelays (sus : List StopTimeUpdate) : List Int :=
  sus.flatMap fun su =>
    presentEventDelay su.arrival ++ presentEventDelay su.departure

/-- The claim's wording of trip-update delay derivation: mean of all
present delays (zeros included), `none` only when no delay is present. -/
def tripUpdateDelayClaim (sus : List StopTimeUpdate) : Option ℚ :=
  let delays := presentDelays sus
  if delays = [] then none
  else some ((delays.sum : ℚ) / (delays.length : ℚ))

/-! ## Ingestion cycle (`ingestion/base.py`) -/

/-- `IngestionResult` dataclass, restricted to the fields `run_continuous`
reads. -/
structure IngestionResult where
  success : Bool
  recordCount : Nat
  errorMessage : Option String := none
deriving Repr, DecidableEq

/-- `IngestionResult.is_successful`:
`self.success and self.record_count > 0`. -/
def IngestionResult.is_successful (r : IngestionResult) : Bool :=
  r.success && decide (0 < r.recordCount)

/-- `BaseIngestor.ingest` outcome shape: `fetch_data` either raises
(`none`) or returns a raw list; an empty raw list short-circuits to a
successful zero-record result; otherwise `transform_data` runs and the
count is the transformed length. -/
def ingest {α β : Type} (fetched : Option (List α))
    (transform : List α → List β) : IngestionResult :=
  match fetched with
  | none => { success := false, recordCount := 0, errorMessage := some "error" }
  | some [] => { success := true, recordCount := 0 }
  | some raw => { success := true, recordCount := (transform raw).length }

/-- The callback decision in `run_continuous`:
`if callback and result.is_successful: await callback(result)`. -/
def callbackInvoked (hasCallback : Bool) (r : IngestionResult) : Bool :=
  hasCallback && r.is_successful

/-! ## Storage gateway batch path (`storage/transit_storage.py`) -/

/-- Return dictionary of `store_batch` together with the status string of
the `DataIngestionLog` row it appends. -/
structure BatchOutcome where
  success : Bool
  total : Nat
  successful : Nat
  errors : Nat
  logStatus : String
deriving Repr, DecidableEq

/-- `TransitStorageService.store_batch`, abstracted over whether each
record's `_store_*` call raises (`false`) or completes (`true`): the
per-record loop counts successes and errors, the appended log row has
status `"success"` iff no record failed, and the returned dictionary
always carries `success: True` once the loop and the log append
complete. -/
def store_batch (outcomes : List Bool) : BatchOutcome :=
  let counts := outcomes.foldl
    (fun (se : Nat × Nat) ok => if ok then (se.1 + 1, se.2) else (se.1, se.2 + 1))
    (0, 0)
  { success := true
    total := outcomes.length
    successful := counts.1
    errors := counts.2
    logStatus := if counts.2 = 0 then "success" else "partial" }

/-! ## Storage gateway per-record path (`storage/transit_storage.py`) -/

/-- `_map_schedule_relationship` on the pydantic field (`Optional[str]`):
fixed lowercase lookup table, unrecognised strings map to `None`. -/
def map_schedule_relationship : Option String → Option Int
  | none => none
  | some v =>
      let s := v.toLower
      if s = "scheduled" then some 0
      else if s = "added" then some 1
      else if s = "unscheduled" then some 2
      else if s = "canceled" then some 3
      else if s = "skipped" then some 4
      else none

/-- A row of the `predictions` table as created by `_store_prediction`
(auto-increment primary key `id`, the mapped enumeration and the copied
fields). -/
structure PredRow where
  id : Nat
  tripId : String
  routeId : String
  stopId : String
  vehicleId : Option String
  arrivalTime : Option Int
  departureTime : Option Int
  scheduleRelationship : Option Int
  status : Option String
  delay : Option Int
deriving Repr, DecidableEq

/-- The relational state touched by `_store_prediction`: the reference
tables auto-seeded by the `_ensure_*_exists` helpers (modelled by their
primary keys), the `predictions` table in insertion order, and the next
auto-increment id the session assigns on flush. -/
structure DBState where
  routes : List String
  stops : List String
  trips : List String
  vehicles : List String
  predictions : List PredRow
  nextId : Nat
deriving Repr, DecidableEq

/-- `_ensure_route_exists`: insert a minimal placeholder row unless the
id is already present. -/
def ensure_route_exists (routeId : String) (s : DBState) : DBState :=
  if routeId ∈ s.routes then s else { s with routes := s.routes ++ [routeId] }

/-- `_ensure_stop_exists`. -/
def ensure_stop_exists (stopId : String) (s : DBState) : DBState :=
  if stopId ∈ s.stops then s else { s with stops := s.stops ++ [stopId] }

/-- `_ensure_trip_exists`. -/
def ensure_trip_exists (tripId : String) (s : DBState) : DBState :=
  if tripId ∈ s.trips then s else { s with trips := s.trips ++ [tripId] }

/-- `_ensure_vehicle_exists` (guarded by truthiness of `vehicle_id` at
its head: `if vehicle_id and not ...`). -/
def ensure_vehicle_exists (vehicleId : String) (s : DBState) : DBState :=
  if vehicleId ≠ "" ∧ vehicleId ∉ s.vehicles then
    { s with vehicles := s.vehicles ++ [vehicleId] }
  else s

/-- The idempotency-key filter of `_store_prediction`: match on
`trip_id`, `stop_id` and `arrival_time` (SQLAlchemy `== None` compares as
`IS NULL`, i.e. plain option equality). -/
def predKeyMatches (p : Prediction) (row : PredRow) : Bool :=
  row.tripId == p.tripId && row.stopId == p.stopId &&
    row.arrivalTime == p.arrivalTime

/-- Truthiness of `getattr(prediction, 'vehicle_id', None)`: present and
nonempty. -/
def vehicleIdTruthy : Option String → Bool
  | some v => v ≠ ""
  | none => false

/-- The `First ensure related entities exist` block of
`_store_prediction`: seed route, stop and trip, and the vehicle when
`settings.auto_seed_missing_entities` is set and `vehicle_id` is truthy. -/
def seedParents (autoSeed : Bool) (p : Prediction) (s : DBState) : DBState :=
  let s := ensure_route_exists p.routeId s
  let s := ensure_stop_exists p.stopId s
  let s := ensure_trip_exists p.tripId s
  if autoSeed ∧ vehicleIdTruthy p.vehicleId then
    ensure_vehicle_exists (p.vehicleId.getD "") s
  else s

/-- The `Create database prediction record` block of `_store_prediction`:
the new row flushed with the next auto-increment id. -/
def newPredRow (p : Prediction) (id : Nat) : PredRow :=
  { id := id
    tripId := p.tripId
    routeId := p.routeId
    stopId := p.stopId
    vehicleId := p.vehicleId
    arrivalTime := p.arrivalTime
    departureTime := p.departureTime
    scheduleRelationship := map_schedule_relationship p.scheduleRelationship
    status := p.status
    delay := p.delay }

/-- `TransitStorageService._store_prediction`: auto-seed the referenced
parent entities, then the idempotent insert — return the existing row's
id when a row with the same `(trip_id, stop_id, arrival_time)` exists,
otherwise flush a new row and return its fresh id. Ids are returned as
`str(...)` like the source. -/
def store_prediction (autoSeed : Bool) (p : Prediction) (s : DBState) :
    String × DBState :=
  let s := seedParents autoSeed p s
  match s.predictions.find? (predKeyMatches p) with
  | some row => (toString row.id, s)
  | none =>
      (toString s.nextId,
        { s with predictions := s.predictions ++ [newPredRow p s.nextId],
                 nextId := s.nextId + 1 })

/-! ## REST rate limiter (`ingestion/v3_rest_ingestor.py`, `_check_rate_limit`) -/

/-- `V3RestIngestor._check_rate_limit`, time in integer seconds. Given
the wall-clock instant `now` at which the call starts and the current
`request_timestamps` window, it drops timestamps at or before
`now - 60`, sleeps `oldest - cutoff` seconds when the window already
holds `quota` entries, appends the *pre-wait* instant `now`, and returns
the instant at which the caller resumes (the admission time of the
request) together with the new window. -/
def check_rate_limit (quota : Nat) (now : Int) (timestamps : List Int) :
    Int × List Int :=
  let cutoff := now - 60
  let kept := timestamps.filter fun ts => cutoff < ts
  if quota ≤ kept.length then
    let waitTime := kept.headD 0 - cutoff
    (now + waitTime, kept ++ [now])
  else
    (now, kept ++ [now])

/-- Admission times of `n` back-to-back `admit` calls by a single caller:
each call starts the instant the previous one returns. -/
def admitTrace (quota : Nat) : Nat → Int → List Int → List Int
  | 0, _, _ => []
  | n + 1, now, timestamps =>
      let r := check_rate_limit quota now timestamps
      r.1 :: admitTrace quota n r.1 r.2

/-! ## REST retry logic (`ingestion/v3_rest_ingestor.py`, `_make_request`) -/

/-- One HTTP attempt's outcome as `_make_request` distinguishes them:
`ok` (status 200), `rateLimited n` (status 429 with `Retry-After: n`),
`serverError` (status ≥ 500), and `networkError` (an
`aiohttp.ClientError`, which also covers the `raise_for_status()` path
for other non-2xx statuses). -/
inductive ApiResponse where
  | ok
  | rateLimited (retryAfter : Nat)
  | serverError
  | networkError
deriving Repr, DecidableEq

/-- Result of a `_make_request` run over a finite script of attempt
outcomes: `success` (the 200 branch returns the body), `failure` (the
error is re-raised), or `outOfScript` when the script is exhausted while
the code would still retry. -/
inductive ReqResult where
  | success
  | failure
  | outOfScript
deriving Repr, DecidableEq

/-- `V3RestIngestor._make_request`, driven by a script assigning an
outcome to each successive attempt; returns the result and the list of
sleep durations in order. A 429 sleeps exactly `retryAfter` seconds and
recurses with `retries + 1` (no bound check); a 5xx or network error
sleeps `retry_delay * 2 ** retries` and recurses with `retries + 1` only
while `retries < max_retries`, re-raising otherwise. -/
def make_request (maxRetries : Nat) (retryDelay : ℚ) :
    List ApiResponse → Nat → ReqResult × List ℚ
  | [], _ => (ReqResult.outOfScript, [])
  | resp :: rest, retries =>
      match resp with
      | ApiResponse.ok => (ReqResult.success, [])
      | ApiResponse.rateLimited retryAfter =>
          let r := make_request maxRetries retryDelay rest (retries + 1)
          (r.1, (retryAfter : ℚ) :: r.2)
      | ApiResponse.serverError =>
          if retries < maxRetries then
            let r := make_request maxRetries retryDelay rest (retries + 1)
            (r.1, retryDelay * 2 ^ retries :: r.2)
          else (ReqResult.failure, [])
      | ApiResponse.networkError =>
          if retries < maxRetries then
            let r := make_request maxRetries retryDelay rest (retries + 1)
            (r.1, retryDelay * 2 ^ retries :: r.2)
          else (ReqResult.failure, [])

/-- The claim's wording of the retry logic: identical to `make_request`
except that handling a 429 does *not* consume a retry attempt — the
recursion keeps the same `retries` counter. -/
def makeRequestClaim (maxRetries : Nat) (retryDelay : ℚ) :
    List ApiResponse → Nat → ReqResult × List ℚ
  | [], _ => (ReqResult.outOfScript, [])
  | resp :: rest, retries =>
      match resp with
      | ApiResponse.ok => (ReqResult.success, [])
      | ApiResponse.rateLimited retryAfter =>
          let r := makeRequestClaim maxRetries retryDelay rest retries
          (r.1, (retryAfter : ℚ) :: r.2)
      | ApiResponse.serverError =>
          if retries < maxRetries then
            let r := makeRequestClaim maxRetries retryDelay rest (retries + 1)
            (r.1, retryDelay * 2 ^ retries :: r.2)
          else (ReqResult.failure, [])
      | ApiResponse.networkError =>
          if retries < maxRetries then
            let r := makeRequestClaim maxRetries retryDelay rest (retries + 1)
            (r.1, retryDelay * 2 ^ retries :: r.2)
          else (ReqResult.failure, [])

/-! ## Concrete fixtures used by the claims -/

/-- The five predictions of the aggregation scenario, delays
`[0, 60, 300, 900, 1800]` (mirroring the repository's own
`test_performance_metrics_with_delays` fixture). -/
def perfFixture : List Prediction :=
  [ { predictionId := "pred_0", tripId := "trip_0", stopId := "stop_0",
      routeId := "Red", delay := some 0 },
    { predictionId := "pred_1", tripId := "trip_1", stopId := "stop_1",
      routeId := "Red", delay := some 60 },
    { predictionId := "pred_2", tripId := "trip_2", stopId := "stop_2",
      routeId := "Red", delay := some 300 },
    { predictionId := "pred_3", tripId := "trip_3", stopId := "stop_3",
      routeId := "Red", delay := some 900 },
    { predictionId := "pred_4", tripId := "trip_4", stopId := "stop_4",
      routeId := "Red", delay := some 1800 } ]

/-! ## Shared helper lemmas -/

theorem store_batch_foldl_counts (outcomes : List Bool) (s e : Nat) :
    outcomes.foldl
        (fun (se : Nat × Nat) ok => if ok then (se.1 + 1, se.2) else (se.1, se.2 + 1))
        (s, e)
      = (s + outcomes.countP (fun b => b), e + outcomes.countP (fun b => !b)) := by
  induction outcomes generalizing s e with
  | nil => simp
  | cons b bs ih =>
      cases b <;> simp [List.countP_cons, ih] <;> omega

/-! ## C2 — rate-limited retries and the retry budget -/

/-- C2 (counterexample): a run showing that a 429 consumes a retry
attempt. With `max_retries = 1` and `retry_delay = 5`, the script
"429 (Retry-After 5), then 503, then 200" fails under the code (the 429
handler recursed with `retries + 1`, so the 503 finds the budget already
spent), whereas the claim's retry logic, which keeps the counter
unchanged across a 429, reaches the 200 and succeeds. -/
theorem C2_counterexample :
    make_request 1 5
        [ApiResponse.rateLimited 5, ApiResponse.serverError, ApiResponse.ok] 0
      = (ReqResult.failure, [(5 : ℚ)]) ∧
    makeRequestClaim 1 5
        [ApiResponse.rateLimited 5, ApiResponse.serverError, ApiResponse.ok] 0
      = (ReqResult.success, [(5 : ℚ), (5 : ℚ)]) := by
  constructor
  · norm_num [make_request]
  · norm_num [makeRequestClaim]

/-- C2 (amended): on a 429 carrying `Retry-After: n` the code waits
exactly `n` seconds and always retries — the rate-limited branch never
checks `max_retries` — but the recursive call runs with `retries + 1`,
so each rate-limited retry does consume an attempt from the shared
budget available to subsequent 5xx / network failures. -/
theorem C2_rate_limited_retry :
    ∀ (maxRetries : Nat) (retryDelay : ℚ) (rest : List ApiResponse)
      (retries retryAfter : Nat),
      make_request maxRetries retryDelay
          (ApiResponse.rateLimited retryAfter :: rest) retries
        = ((make_request maxRetries retryDelay rest (retries + 1)).1,
            (retryAfter : ℚ) ::
              (make_request maxRetries retryDelay rest (retries + 1)).2) := by
  intro maxRetries retryDelay rest retries retryAfter
  simp [make_request]

/-! ## C3 — sliding-window rate limiter -/

/-- C3: the rate limiter violates the rolling-window quota. With quota 2,
five back-to-back `admit` calls starting at `t = 0` are admitted at times
`[0, 0, 60, 60, 60]`: calls 3–5 all proceed at `t = 60` — three
admissions inside the rolling window `(30, 90]` against a quota of 2 —
because the blocked call recorded its pre-wait start time `0`, which had
already aged out of the window when it resumed. -/
theorem C3_overadmission :
    admitTrace 2 5 0 [] = [0, 0, 60, 60, 60] ∧
      2 < (admitTrace 2 5 0 []).countP (fun t => 30 < t && t ≤ 90) := by
  decide

/-! ## C6 — performance metrics exact values -/

/-- C6 (counterexample): on delays `[0, 60, 300, 900, 1800]` the
aggregator reports `avg_delay = 3060 / 5 = 612.0`, not the claimed
`532.0`. -/
theorem C6_counterexample :
    (get_performance_metrics perfFixture).avgDelay = 612 ∧
      ((612 : ℚ) = 532 → False) := by
  have h : perfFixture.filterMap Prediction.delay = [0, 60, 300, 900, 1800] := rfl
  have hsum : ([0, 60, 300, 900, 1800] : List Int).sum = 3060 := rfl
  constructor
  · simp only [get_performance_metrics, h, hsum]
    rw [if_neg (by simp : ¬([0, 60, 300, 900, 1800] : List Int) = [])]
    norm_num
  · norm_num

/-- C6 (amended): on delays `[0, 60, 300, 900, 1800]` the performance
metrics are exactly `avg_delay = 612.0`, `max_delay = 1800`,
`min_delay = 0`, `delay_count = 5`. -/
theorem C6_exact_metrics :
    get_performance_metrics perfFixture
      = { avgDelay := 612, maxDelay := 1800, minDelay := 0,
          delayCount := some 5 } := by
  have h : perfFixture.filterMap Prediction.delay = [0, 60, 300, 900, 1800] := rfl
  have hsum : ([0, 60, 300, 900, 1800] : List Int).sum = 3060 := rfl
  have hmax : listMax [0, 60, 300, 900, 1800] = 1800 := rfl
  have hmin : listMin [0, 60, 300, 900, 1800] = 0 := rfl
  simp only [get_performance_metrics, h, hsum, hmax, hmin]
  rw [if_neg (by simp : ¬([0, 60, 300, 900, 1800] : List Int) = [])]
  norm_num [PerfMetrics.mk.injEq]

/-! ## C7 — overall service status scoring -/

/-- C7: `_calculate_overall_status` computes exactly the claim's scoring:
start at 100; subtract 20 if on-time percentage < 80, else 10 if < 90;
subtract 15 per high-severity anomaly; subtract 10 if total alerts > 5;
map score ≥ 80 / ≥ 60 / ≥ 40 to excellent / good / fair, else poor. -/
theorem C7_status_scoring :
    ∀ (onTimePercentage : ℚ) (anomalySeverities : List String)
      (totalAlerts : Int),
      calculate_overall_status onTimePercentage anomalySeverities totalAlerts
        = overallStatusClaim onTimePercentage anomalySeverities totalAlerts := by
  intro pct sev alerts
  unfold calculate_overall_status overallStatusClaim
  by_cases h1 : pct < 80 <;> by_cases h2 : pct < 90 <;>
    by_cases h3 : alerts > 5 <;> simp [h1, h2, h3] <;> ring_nf

/-! ## C8 — callback gating in the polling loop -/

/-- C8 (counterexample): a poll cycle whose fetch returns an empty list
is a successful cycle (`success = True`, zero records), yet
`run_continuous` does not invoke the subscriber callback, because
`is_successful` additionally requires `record_count > 0`. -/
theorem C8_counterexample :
    (ingest (some ([] : List Nat)) (fun l => l)).success = true ∧
      callbackInvoked true (ingest (some ([] : List Nat)) (fun l => l))
        = false := by
  constructor <;> rfl

/-- C8 (amended): the registered callback is invoked exactly when the
cycle's ingestion succeeded *and* produced at least one record;
successful zero-record cycles and failed cycles both skip it. -/
theorem C8_callback_iff :
    ∀ r : IngestionResult,
      callbackInvoked true r = true ↔ (r.success = true ∧ 0 < r.recordCount) := by
  intro r
  simp [callbackInvoked, IngestionResult.is_successful]

/-! ## C10 — batch storage outcome -/

/-- C10: `store_batch` returns `success = True` whenever the per-record
loop and the log append complete — even when every record failed; the
per-record failures appear only in the `errors` count, and the appended
ingestion-log row has status `"partial"` exactly when at least one record
failed, `"success"` otherwise. -/
theorem C10_store_batch :
    ∀ outcomes : List Bool,
      (store_batch outcomes).success = true ∧
      (store_batch outcomes).total = outcomes.length ∧
      (store_batch outcomes).successful = outcomes.countP (fun b => b) ∧
      (store_batch outcomes).errors = outcomes.countP (fun b => !b) ∧
      ((store_batch outcomes).logStatus = "partial"
        ↔ 0 < outcomes.countP (fun b => !b)) ∧
      ((store_batch outcomes).logStatus = "success"
        ↔ outcomes.countP (fun b => !b) = 0) := by
  intro outcomes
  unfold store_batch
  rw [store_batch_foldl_counts]
  have hne : "partial" ≠ "success" := by decide
  refine ⟨rfl, rfl, by simp, by simp, ?_, ?_⟩ <;>
    by_cases h : outcomes.countP (fun b => !b) = 0 <;>
      simp [h, hne, Nat.pos_of_ne_zero]

/-! ## C4 — trip-update delay derivation -/

theorem truthyEventDelay_eq_filter (o : Option StopTimeEvent) :
    truthyEventDelay o = (presentEventDelay o).filter (fun d => d != 0) := by
  rcases o with _ | ev
  · rfl
  · rcases hd : ev.delay with _ | d
    · simp [truthyEventDelay, presentEventDelay, hd]
    · by_cases h : d = 0 <;>
        simp [truthyEventDelay, presentEventDelay, hd, h]

theorem collectDelays_eq_filter (sus : List StopTimeUpdate) :
    collectDelays sus = (presentDelays sus).filter (fun d => d != 0) := by
  induction sus with
  | nil => rfl
  | cons su rest ih =>
      simp [collectDelays, presentDelays, List.filter_append, ih,
        truthyEventDelay_eq_filter]

/-- One stop-time update whose arrival carries a present delay of `0`
and whose departure carries a present delay of `60`. -/
def tripUpdateFixture : List StopTimeUpdate :=
  [ { stopId := "stop-a",
      arrival := some { delay := some 0 },
      departure := some { delay := some 60 } } ]

/-- C4 (counterexample): on a stop-time update with present delays
`0` (arrival) and `60` (departure), the code derives delay `60` — the
zero delay is dropped by the truthiness test — while the claim's mean
over all present delays is `30`. -/
theorem C4_counterexample :
    trip_update_delay tripUpdateFixture = some 60 ∧
      tripUpdateDelayClaim tripUpdateFixture = some 30 ∧
      ¬ (some (60 : ℚ) = some (30 : ℚ)) := by
  refine ⟨?_, ?_, by norm_num⟩
  · have h : collectDelays tripUpdateFixture = [60] := rfl
    simp only [trip_update_delay, h]
    norm_num
  · have h : presentDelays tripUpdateFixture = [0, 60] := rfl
    have hsum : ([0, 60] : List Int).sum = 60 := rfl
    simp only [tripUpdateDelayClaim, h, hsum]
    rw [if_neg (by simp : ¬([0, 60] : List Int) = [])]
    norm_num

/-- C4 (amended): the derived trip-update delay is the mean of the
present *and nonzero* arrival/departure delays across the trip's
stop-time updates, and it is null exactly when no nonzero delay is
present (in particular a trip whose present delays are all `0` gets a
null delay, not `0`). -/
theorem C4_mean_of_nonzero_delays :
    ∀ sus : List StopTimeUpdate,
      trip_update_delay sus =
        (if (presentDelays sus).filter (fun d => d != 0) = [] then none
         else some
           ((((presentDelays sus).filter (fun d => d != 0)).sum : ℚ)
             / (((presentDelays sus).filter (fun d => d != 0)).length : ℚ))) := by
  intro sus
  simp only [trip_update_delay, collectDelays_eq_filter]

/-! ## C5 — coordinate validation bounds -/

/-- A structurally valid vehicle position at latitude 0, longitude 0
(inside the claimed world-coordinate ranges). -/
def vpWorld : VehiclePos :=
  { vehicleId := "vehicle_1", latitude := 0, longitude := 0, timestamp := 0 }

/-- C5 (counterexample): the record at `(0, 0)` — whose coordinates lie
well inside `[-90, 90] × [-180, 180]` — is rejected by
`_validate_vehicle_position`, because the validator's configured bounds
are the Boston service area, not the world ranges. -/
theorem C5_counterexample :
    coordInRangeClaim vpWorld.latitude vpWorld.longitude = true ∧
      validate_vehicle_position 0 vpWorld = none := by
  constructor
  · norm_num [coordInRangeClaim, vpWorld]
  · have hreq : requiredFieldsCheck vpWorld = true := by decide
    have hco : validate_coordinates vpWorld.latitude vpWorld.longitude
        vehiclePositionBounds = false := by
      norm_num [validate_coordinates, vehiclePositionBounds, vpWorld]
    simp [validate_vehicle_position, hreq, hco]

/-- C5 (amended): for a vehicle position whose other checks pass
(non-blank vehicle id, in-range speed and bearing when present, fresh
timestamp), validation accepts it exactly when its latitude lies in
`[42, 43]` and its longitude lies in `[-71.5, -70.5]`. -/
theorem C5_boston_bounds (now : Int) (vp : VehiclePos)
    (hreq : requiredFieldsCheck vp = true)
    (hspeed : speedCheck vp = true)
    (hage : validate_timestamp_age now vp.timestamp 1800 = true)
    (hbearing : bearingCheck vp = true) :
    (validate_vehicle_position now vp).isSome ↔
      ((42 : ℚ) ≤ vp.latitude ∧ vp.latitude ≤ 43 ∧
        (-71.5 : ℚ) ≤ vp.longitude ∧ vp.longitude ≤ -70.5) := by
  by_cases hco : validate_coordinates vp.latitude vp.longitude
      vehiclePositionBounds = true
  · have : validate_vehicle_position now vp = some vp := by
      simp [validate_vehicle_position, hreq, hspeed, hage, hbearing, hco]
    rw [this]
    simp only [Option.isSome_some, true_iff]
    have := hco
    simp only [validate_coordinates, vehiclePositionBounds, Bool.and_eq_true,
      decide_eq_true_eq] at this
    norm_num at this ⊢
    exact ⟨this.1.1.1, this.1.1.2, this.1.2, this.2⟩
  · have : validate_vehicle_position now vp = none := by
      simp [validate_vehicle_position, hco]
    rw [this]
    simp only [Option.isSome_none, Bool.false_eq_true, false_iff]
    intro hc
    apply hco
    simp only [validate_coordinates, vehiclePositionBounds, Bool.and_eq_true,
      decide_eq_true_eq]
    norm_num at hc ⊢
    tauto

/-- A vehicle position at Park Street, inside the Boston bounds. -/
def vpBoston : VehiclePos :=
  { vehicleId := "vehicle_1", latitude := 42.3564, longitude := -71.0624,
    timestamp := 0 }

/-- Witness for `C5_boston_bounds` at a concrete in-bounds record. -/
theorem C5_boston_bounds_witness :
    (requiredFieldsCheck vpBoston = true ∧ speedCheck vpBoston = true ∧
      validate_timestamp_age 0 vpBoston.timestamp 1800 = true ∧
      bearingCheck vpBoston = true) ∧
    ((validate_vehicle_position 0 vpBoston).isSome ↔
      ((42 : ℚ) ≤ vpBoston.latitude ∧ vpBoston.latitude ≤ 43 ∧
        (-71.5 : ℚ) ≤ vpBoston.longitude ∧ vpBoston.longitude ≤ -70.5)) :=
  ⟨⟨by decide, by decide, by decide, by decide⟩,
    C5_boston_bounds 0 vpBoston (by decide) (by decide) (by decide) (by decide)⟩

/-! ## C9 — route/stop delay lists and zero-delay indistinguishability -/

theorem routeDelays_eq_filterMap (r : String) (ps : List Prediction) :
    routeDelays r ps
      = (ps.filter fun p => p.routeId == r && delayTruthy p.delay).filterMap
          Prediction.delay := by
  induction ps with
  | nil => rfl
  | cons p ps ih =>
      by_cases h1 : p.routeId = r
      · rcases hd : p.delay with _ | d
        · simp [routeDelays, delayTruthy, h1, hd, ih]
        · by_cases h2 : d = 0 <;>
            simp [routeDelays, delayTruthy, h1, hd, h2, ih]
      · simp [routeDelays, delayTruthy, h1, ih]

theorem stopDelays_eq_filterMap (sid : String) (ps : List Prediction) :
    stopDelays sid ps
      = (ps.filter fun p => p.stopId == sid && delayTruthy p.delay).filterMap
          Prediction.delay := by
  induction ps with
  | nil => rfl
  | cons p ps ih =>
      by_cases h1 : p.stopId = sid
      · rcases hd : p.delay with _ | d
        · simp [stopDelays, delayTruthy, h1, hd, ih]
        · by_cases h2 : d = 0 <;>
            simp [stopDelays, delayTruthy, h1, hd, h2, ih]
      · simp [stopDelays, delayTruthy, h1, ih]

theorem routeDelays_map_const (r : String) (ps : List Prediction)
    (d₀ : Option Int) (h : delayTruthy d₀ = false) :
    routeDelays r (ps.map fun p => { p with delay := d₀ }) = [] := by
  induction ps with
  | nil => rfl
  | cons p ps ih => simp [routeDelays, h, ih]

theorem stopDelays_map_const (sid : String) (ps : List Prediction)
    (d₀ : Option Int) (h : delayTruthy d₀ = false) :
    stopDelays sid (ps.map fun p => { p with delay := d₀ }) = [] := by
  induction ps with
  | nil => rfl
  | cons p ps ih => simp [stopDelays, h, ih]

/-- C9: a prediction contributes to a route's or stop's `delays` list
exactly when it belongs to that key and its delay is present and nonzero
(the first two conjuncts characterise the loop as a filter); and a
population whose delays are all `0` produces summaries *identical* to
one whose delays are all missing — in particular
`avg_delay = max_delay = min_delay = 0` in both. -/
theorem C9_zero_delays_indistinguishable :
    ∀ (ps : List Prediction) (vps : List VehiclePos) (als : List AlertRec)
      (r sid : String),
      routeDelays r ps
          = (ps.filter fun p => p.routeId == r && delayTruthy p.delay).filterMap
              Prediction.delay ∧
      stopDelays sid ps
          = (ps.filter fun p => p.stopId == sid && delayTruthy p.delay).filterMap
              Prediction.delay ∧
      get_route_summary (ps.map fun p => { p with delay := some 0 }) vps als r
          = get_route_summary (ps.map fun p => { p with delay := none }) vps als r ∧
      (get_route_summary (ps.map fun p => { p with delay := some 0 }) vps als r).avgDelay
          = 0 ∧
      (get_route_summary (ps.map fun p => { p with delay := some 0 }) vps als r).maxDelay
          = 0 ∧
      (get_route_summary (ps.map fun p => { p with delay := some 0 }) vps als r).minDelay
          = 0 ∧
      get_stop_summary (ps.map fun p => { p with delay := some 0 }) als sid
          = get_stop_summary (ps.map fun p => { p with delay := none }) als sid ∧
      (get_stop_summary (ps.map fun p => { p with delay := some 0 }) als sid).avgDelay
          = 0 ∧
      (get_stop_summary (ps.map fun p => { p with delay := some 0 }) als sid).maxDelay
          = 0 ∧
      (get_stop_summary (ps.map fun p => { p with delay := some 0 }) als sid).minDelay
          = 0 := by
  intro ps vps als r sid
  have hz : delayTruthy (some 0) = false := rfl
  have hn : delayTruthy none = false := rfl
  refine ⟨routeDelays_eq_filterMap r ps, stopDelays_eq_filterMap sid ps,
    ?_, ?_, ?_, ?_, ?_, ?_, ?_, ?_⟩ <;>
    simp [get_route_summary, get_stop_summary,
      routeDelays_map_const _ _ _ hz, routeDelays_map_const _ _ _ hn,
      stopDelays_map_const _ _ _ hz, stopDelays_map_const _ _ _ hn,
      List.countP_map, Function.comp_def]

/-! ## C1 — idempotent prediction storage -/

theorem ensure_route_exists_noop {rid : String} {s : DBState}
    (h : rid ∈ s.routes) : ensure_route_exists rid s = s := by
  simp [ensure_route_exists, h]

theorem ensure_stop_exists_noop {sid : String} {s : DBState}
    (h : sid ∈ s.stops) : ensure_stop_exists sid s = s := by
  simp [ensure_stop_exists, h]

theorem ensure_trip_exists_noop {tid : String} {s : DBState}
    (h : tid ∈ s.trips) : ensure_trip_exists tid s = s := by
  simp [ensure_trip_exists, h]

theorem ensure_vehicle_exists_noop {v : String} {s : DBState}
    (h : v ∈ s.vehicles) : ensure_vehicle_exists v s = s := by
  simp [ensure_vehicle_exists, h]

@[simp]
theorem ensure_route_exists_predictions (rid : String) (s : DBState) :
    (ensure_route_exists rid s).predictions = s.predictions := by
  unfold ensure_route_exists
  split <;> rfl

@[simp]
theorem ensure_stop_exists_predictions (sid : String) (s : DBState) :
    (ensure_stop_exists sid s).predictions = s.predictions := by
  unfold ensure_stop_exists
  split <;> rfl

@[simp]
theorem ensure_trip_exists_predictions (tid : String) (s : DBState) :
    (ensure_trip_exists tid s).predictions = s.predictions := by
  unfold ensure_trip_exists
  split <;> rfl

@[simp]
theorem ensure_vehicle_exists_predictions (v : String) (s : DBState) :
    (ensure_vehicle_exists v s).predictions = s.predictions := by
  unfold ensure_vehicle_exists
  split <;> rfl

@[simp]
theorem ensure_route_exists_nextId (rid : String) (s : DBState) :
    (ensure_route_exists rid s).nextId = s.nextId := by
  unfold ensure_route_exists
  split <;> rfl

@[simp]
theorem ensure_stop_exists_nextId (sid : String) (s : DBState) :
    (ensure_stop_exists sid s).nextId = s.nextId := by
  unfold ensure_stop_exists
  split <;> rfl

@[simp]
theorem ensure_trip_exists_nextId (tid : String) (s : DBState) :
    (ensure_trip_exists tid s).nextId = s.nextId := by
  unfold ensure_trip_exists
  split <;> rfl

@[simp]
theorem ensure_vehicle_exists_nextId (v : String) (s : DBState) :
    (ensure_vehicle_exists v s).nextId = s.nextId := by
  unfold ensure_vehicle_exists
  split <;> rfl

@[simp]
theorem ensure_stop_exists_routes (sid : String) (s : DBState) :
    (ensure_stop_exists sid s).routes = s.routes := by
  unfold ensure_stop_exists
  split <;> rfl

@[simp]
theorem ensure_trip_exists_routes (tid : String) (s : DBState) :
    (ensure_trip_exists tid s).routes = s.routes := by
  unfold ensure_trip_exists
  split <;> rfl

@[simp]
theorem ensure_vehicle_exists_routes (v : String) (s : DBState) :
    (ensure_vehicle_exists v s).routes = s.routes := by
  unfold ensure_vehicle_exists
  split <;> rfl

@[simp]
theorem ensure_trip_exists_stops (tid : String) (s : DBState) :
    (ensure_trip_exists tid s).stops = s.stops := by
  unfold ensure_trip_exists
  split <;> rfl

@[simp]
theorem ensure_vehicle_exists_stops (v : String) (s : DBState) :
    (ensure_vehicle_exists v s).stops = s.stops := by
  unfold ensure_vehicle_exists
  split <;> rfl

@[simp]
theorem ensure_vehicle_exists_trips (v : String) (s : DBState) :
    (ensure_vehicle_exists v s).trips = s.trips := by
  unfold ensure_vehicle_exists
  split <;> rfl

@[simp]
theorem mem_ensure_route_exists (rid : String) (s : DBState) :
    rid ∈ (ensure_route_exists rid s).routes := by
  unfold ensure_route_exists
  split
  · assumption
  · simp

@[simp]
theorem mem_ensure_stop_exists (sid : String) (s : DBState) :
    sid ∈ (ensure_stop_exists sid s).stops := by
  unfold ensure_stop_exists
  split
  · assumption
  · simp

@[simp]
theorem mem_ensure_trip_exists (tid : String) (s : DBState) :
    tid ∈ (ensure_trip_exists tid s).trips := by
  unfold ensure_trip_exists
  split
  · assumption
  · simp

theorem mem_ensure_vehicle_exists {v : String} (s : DBState) (hv : v ≠ "") :
    v ∈ (ensure_vehicle_exists v s).vehicles := by
  unfold ensure_vehicle_exists
  split
  · simp
  · next hcond =>
      simp only [hv, ne_eq, not_false_eq_true, true_and, not_not] at hcond
      exact hcond

theorem seedParents_predictions (a : Bool) (p : Prediction) (s : DBState) :
    (seedParents a p s).predictions = s.predictions := by
  simp only [seedParents]
  split_ifs <;> simp

theorem seedParents_nextId (a : Bool) (p : Prediction) (s : DBState) :
    (seedParents a p s).nextId = s.nextId := by
  simp only [seedParents]
  split_ifs <;> simp

theorem mem_routes_seedParents (a : Bool) (p : Prediction) (s : DBState) :
    p.routeId ∈ (seedParents a p s).routes := by
  simp only [seedParents]
  split_ifs <;> simp

theorem mem_stops_seedParents (a : Bool) (p : Prediction) (s : DBState) :
    p.stopId ∈ (seedParents a p s).stops := by
  simp only [seedParents]
  split_ifs <;> simp

theorem mem_trips_seedParents (a : Bool) (p : Prediction) (s : DBState) :
    p.tripId ∈ (seedParents a p s).trips := by
  simp only [seedParents]
  split_ifs <;> simp

theorem mem_vehicles_seedParents (a : Bool) (p : Prediction) (s : DBState)
    (hc : a = true ∧ vehicleIdTruthy p.vehicleId = true) :
    p.vehicleId.getD "" ∈ (seedParents a p s).vehicles := by
  have hv : p.vehicleId.getD "" ≠ "" := by
    rcases hp : p.vehicleId with _ | v
    · rw [hp] at hc
      simp [vehicleIdTruthy] at hc
    · rw [hp] at hc
      simpa [vehicleIdTruthy] using hc.2
  simp only [seedParents]
  rw [if_pos hc]
  exact mem_ensure_vehicle_exists _ hv

theorem seedParents_noop (a : Bool) (p : Prediction) (t : DBState)
    (hr : p.routeId ∈ t.routes) (hs : p.stopId ∈ t.stops)
    (ht : p.tripId ∈ t.trips)
    (hv : a = true ∧ vehicleIdTruthy p.vehicleId = true →
      p.vehicleId.getD "" ∈ t.vehicles) :
    seedParents a p t = t := by
  simp only [seedParents]
  rw [ensure_route_exists_noop hr, ensure_stop_exists_noop hs,
    ensure_trip_exists_noop ht]
  by_cases hc : a = true ∧ vehicleIdTruthy p.vehicleId = true
  · rw [if_pos hc, ensure_vehicle_exists_noop (hv hc)]
  · rw [if_neg hc]

theorem predKeyMatches_newPredRow (p : Prediction) (n : Nat) :
    predKeyMatches p (newPredRow p n) = true := by
  simp [predKeyMatches, newPredRow]

/-- C1: when no stored prediction row carries `p`'s idempotency key
`(trip_id, stop_id, arrival_time)`, storing `p` twice leaves exactly one
row with that key, and the second call returns the id produced by the
first call without writing a new row — the database state after the
second call is the state after the first. -/
theorem C1_store_prediction_idempotent (a : Bool) (p : Prediction)
    (s : DBState) (h : s.predictions.countP (predKeyMatches p) = 0) :
    (store_prediction a p s).2.predictions.countP (predKeyMatches p) = 1 ∧
    (store_prediction a p (store_prediction a p s).2).1
        = (store_prediction a p s).1 ∧
    (store_prediction a p (store_prediction a p s).2).2
        = (store_prediction a p s).2 := by
  have htp : (seedParents a p s).predictions = s.predictions :=
    seedParents_predictions a p s
  have hfind : (seedParents a p s).predictions.find? (predKeyMatches p)
      = none := by
    rw [htp, List.find?_eq_none]
    intro x hx
    exact by simpa using List.countP_eq_zero.mp h x hx
  have e1 : store_prediction a p s
      = (toString (seedParents a p s).nextId,
          { seedParents a p s with
              predictions :=
                (seedParents a p s).predictions
                  ++ [newPredRow p (seedParents a p s).nextId],
              nextId := (seedParents a p s).nextId + 1 }) := by
    simp only [store_prediction]
    rw [hfind]
  set s1 := (store_prediction a p s).2 with hs1
  have hroutes1 : p.routeId ∈ s1.routes := by
    rw [hs1, e1]
    exact mem_routes_seedParents a p s
  have hstops1 : p.stopId ∈ s1.stops := by
    rw [hs1, e1]
    exact mem_stops_seedParents a p s
  have htrips1 : p.tripId ∈ s1.trips := by
    rw [hs1, e1]
    exact mem_trips_seedParents a p s
  have hveh1 : a = true ∧ vehicleIdTruthy p.vehicleId = true →
      p.vehicleId.getD "" ∈ s1.vehicles := by
    intro hc
    rw [hs1, e1]
    exact mem_vehicles_seedParents a p s hc
  have hseed2 : seedParents a p s1 = s1 :=
    seedParents_noop a p s1 hroutes1 hstops1 htrips1 hveh1
  have hfind2 : s1.predictions.find? (predKeyMatches p)
      = some (newPredRow p (seedParents a p s).nextId) := by
    rw [hs1, e1]
    show ((seedParents a p s).predictions
        ++ [newPredRow p (seedParents a p s).nextId]).find? (predKeyMatches p)
      = _
    rw [List.find?_append, hfind]
    simp [predKeyMatches_newPredRow]
  have e2 : store_prediction a p s1
      = (toString (newPredRow p (seedParents a p s).nextId).id, s1) := by
    simp only [store_prediction]
    rw [hseed2, hfind2]
  refine ⟨?_, ?_, ?_⟩
  · rw [hs1, e1]
    show ((seedParents a p s).predictions
        ++ [newPredRow p (seedParents a p s).nextId]).countP (predKeyMatches p)
      = 1
    rw [List.countP_append, htp, h]
    simp [List.countP_cons, predKeyMatches_newPredRow]
  · rw [e2, e1]
    rfl
  · rw [e2]

/-- A concrete prediction (the data model's own example values). -/
def predEx : Prediction :=
  { predictionId := "pred_123", tripId := "trip_123", stopId := "place-pktrm",
    routeId := "Red", arrivalTime := some 1000, vehicleId := some "vehicle_456",
    delay := some 120 }

/-- An empty relational state. -/
def dbEx : DBState :=
  { routes := [], stops := [], trips := [], vehicles := [], predictions := [],
    nextId := 1 }

/-- Witness for `C1_store_prediction_idempotent` on an empty database. -/
theorem C1_store_prediction_idempotent_witness :
    dbEx.predictions.countP (predKeyMatches predEx) = 0 ∧
      ((store_prediction true predEx dbEx).2.predictions.countP
          (predKeyMatches predEx) = 1 ∧
        (store_prediction true predEx (store_prediction true predEx dbEx).2).1
            = (store_prediction true predEx dbEx).1 ∧
        (store_prediction true predEx (store_prediction true predEx dbEx).2).2
            = (store_prediction true predEx dbEx).2) :=
  ⟨rfl, C1_store_prediction_idempotent true predEx dbEx rfl⟩
